import Mathlib

/-!
Shallow embedding of `src/redshift_create_db.py`, an Ansible module that
reconciles the existence of a Redshift database with a desired state.

The session (psycopg2 cursor) is modelled as an explicit state: the remote
catalog visible through it, the rowcount of the last executed query, and an
ordered log of every statement issued.  The repository functions
`db_exists`, `db_delete`, `db_create`, `db_matches` and the reconciliation
core of `main` are translated directly from the source; the external
collaborators (the identifier-quoting helper `pg_quote_identifier` from
`ansible.module_utils.database`, and the backend behind `Session.execute`)
are modelled from the spec's external-interface contract.
-/

set_option autoImplicit false

/-- Decidable equality for `Except`, so concrete runs of the fallible
operations can be checked by `decide`. -/
instance exceptDecEq {ε α : Type} [DecidableEq ε] [DecidableEq α] :
    DecidableEq (Except ε α) := fun a b =>
  match a, b with
  | .ok x, .ok y =>
    if h : x = y then .isTrue (by rw [h]) else .isFalse (by simp [h])
  | .error x, .error y =>
    if h : x = y then .isTrue (by rw [h]) else .isFalse (by simp [h])
  | .ok _, .error _ => .isFalse (by simp)
  | .error _, .ok _ => .isFalse (by simp)

namespace RedshiftCreateDb

/-- A statement issued through the session: `query` is a parameterised
execute (`cursor.execute(sql, dict)` with the database name as the single
parameter), `raw` an unparameterised `cursor.execute(sql)`. -/
inductive Stmt where
  | query (sql : String) (param : String)
  | raw (sql : String)
  deriving DecidableEq

/-- The remote catalog as visible through the session: for each database
name, how many `pg_database` rows match it.  A consistent backend reports
0 or 1; the model keeps the count general so that the inspector's
behaviour on an inconsistent catalog can be stated. -/
structure Catalog where
  rowsFor : String → Nat

/-- Update the catalog so that `name` matches exactly `n` rows. -/
def Catalog.set (cat : Catalog) (name : String) (n : Nat) : Catalog :=
  ⟨fun m => if m = name then n else cat.rowsFor m⟩

/-- Double every `"` character, as inside a double-quoted SQL identifier. -/
def escapeQuotes : List Char → List Char
  | [] => []
  | c :: rest =>
    if c = '"' then '"' :: '"' :: escapeQuotes rest
    else c :: escapeQuotes rest

/-- Modelled from the spec: the identifier-quoting helper
`pg_quote_identifier` from `ansible.module_utils.database` is an external
collaborator, not part of this repository.  Per the spec's contract it
escapes delimiters, wraps the name in the target system's quoting syntax
(double quotes, with embedded double quotes doubled), and fails with an
`SQLParseError` on input it cannot represent as a single identifier of the
given type — here, a name containing the `.` separator, which would denote
more dotted parts than the one part a `database` identifier allows. -/
def pg_quote_identifier (name : String) (idType : String) : Except String String :=
  if name.data.contains '.' then
    .error ("PostgreSQL does not support " ++ idType ++ " with more than 1 dots")
  else
    .ok ⟨'"' :: (escapeQuotes name.data ++ ['"'])⟩

/-- Parse the rest of a double-quoted SQL identifier (the opening quote
already consumed): a doubled `""` is a literal quote, a single closing `"`
must end the input, and anything after the closing quote is a syntax
error. -/
def parseQuotedRest : List Char → Option (List Char)
  | [] => none
  | c :: rest =>
    if c = '"' then
      match rest with
      | [] => some []
      | c2 :: rest2 =>
        if c2 = '"' then (parseQuotedRest rest2).map (fun l => '"' :: l)
        else none
    else (parseQuotedRest rest).map (fun l => c :: l)

/-- A double-quoted SQL identifier, in full. -/
def parseQuotedIdent : List Char → Option String
  | c :: rest =>
    if c = '"' then (parseQuotedRest rest).map (fun l => ⟨l⟩)
    else none
  | [] => none

/-- Characters allowed in an unquoted SQL identifier. -/
def isPlainIdentChar (c : Char) : Bool :=
  c.isAlphanum || c = '_'

/-- A SQL identifier as the backend reads it: double-quoted, or plain
(nonempty, made of identifier characters only).  The literal `%s`, for
example, is neither, hence a syntax error where an identifier is
expected. -/
def parseSqlIdent (cs : List Char) : Option String :=
  match parseQuotedIdent cs with
  | some s => some s
  | none =>
    if cs ≠ [] ∧ cs.all isPlainIdentChar = true then some ⟨cs⟩
    else none

/-- Leading keyword of a creation statement. -/
def createKeyword : String := "CREATE DATABASE "

/-- Leading keyword of a deletion statement. -/
def dropKeyword : String := "DROP DATABASE "

/-- Modelled from the spec (external interfaces): the backend behind
`Session.execute`, acting as the session double of the spec's testable
properties.  A well-formed creation statement makes the named database
exist (one catalog row); a well-formed deletion statement removes it; any
other raw statement — including one whose identifier position holds
something that is not an identifier — changes nothing. -/
def applyRaw (cat : Catalog) (q : String) : Catalog :=
  if q.data.take createKeyword.data.length = createKeyword.data then
    match parseSqlIdent (q.data.drop createKeyword.data.length) with
    | some name => cat.set name 1
    | none => cat
  else if q.data.take dropKeyword.data.length = dropKeyword.data then
    match parseSqlIdent (q.data.drop dropKeyword.data.length) with
    | some name => cat.set name 0
    | none => cat
  else cat

/-- The session state: the remote catalog, the rowcount of the last
executed read query, and the ordered log of statements issued. -/
structure Cursor where
  catalog : Catalog
  rowcount : Nat
  log : List Stmt

/-- The catalog read query of `db_exists` (line 82 of the source). -/
def selectQuery : String := "SELECT * FROM pg_database WHERE datname=%(db)s"

/-- The read statement `db_exists` issues for a name. -/
def selectStmt (db : String) : Stmt := .query selectQuery db

/-- Modelled from the spec (external interfaces): `Session.execute`.
Executing the catalog read sets `rowcount` to the number of matching rows
and leaves the catalog untouched; executing a raw statement updates the
catalog through the backend.  Every statement is logged in order. -/
def Cursor.execute (c : Cursor) (s : Stmt) : Cursor :=
  match s with
  | .query sql param =>
    if sql = selectQuery then
      { c with rowcount := c.catalog.rowsFor param, log := c.log ++ [s] }
    else
      { c with log := c.log ++ [s] }
  | .raw sql =>
    { c with catalog := applyRaw c.catalog sql, log := c.log ++ [s] }

/-- `db_exists` (source lines 81–84): run the catalog read with the name as
a parameter and report whether exactly one row matched. -/
def db_exists (cursor : Cursor) (db : String) : Bool × Cursor :=
  let c1 := cursor.execute (.query selectQuery db)
  (c1.rowcount == 1, c1)

/-- `db_delete` (source lines 87–93).  Note the source builds the constant
string `"DROP DATABASE %s"` and passes it to `cursor.execute` with no
parameters: the `%s` placeholder is never substituted with the database
name, and no identifier quoting happens on this path. -/
def db_delete (cursor : Cursor) (db : String) : Bool × Cursor :=
  let r := db_exists cursor db
  if r.1 then
    (true, r.2.execute (.raw "DROP DATABASE %s"))
  else
    (false, r.2)

/-- `db_create` (source lines 95–101): re-check existence; when absent,
interpolate the identifier-quoted name into the creation statement
(`"CREATE DATABASE %s" % pg_quote_identifier(db, 'database')`) and execute
it.  The quoting helper's `SQLParseError` propagates as the `.error`
case. -/
def db_create (cursor : Cursor) (db : String) : Except String Bool × Cursor :=
  let r := db_exists cursor db
  if !r.1 then
    match pg_quote_identifier db "database" with
    | .error e => (.error e, r.2)
    | .ok quoted => (.ok true, r.2.execute (.raw (createKeyword ++ quoted)))
  else
    (.ok false, r.2)

/-- `db_matches` (source lines 103–107): returns `false` when `db_exists`
is false and `true` otherwise. -/
def db_matches (cursor : Cursor) (db : String) : Bool × Cursor :=
  let r := db_exists cursor db
  if !r.1 then (false, r.2) else (true, r.2)

/-- The desired state of the module invocation (`state` parameter). -/
inductive DesiredState where
  | present
  | absent
  deriving DecidableEq

/-- The failure categories of `main`'s reconciliation block: the dedicated
`SQLParseError` handlers (lines 216 and 222), the `NotSupportedError`
handler (line 225) and the generic query-failure handler (line 230).  With
the session double never raising, only `sqlParse` actually occurs. -/
inductive FailKind where
  | sqlParse (msg : String)
  | notSupported (msg : String)
  | queryFailed (msg : String)
  deriving DecidableEq

/-- The reconciliation core of `main` (source lines 205–233): in check
mode, compute `changed` from the inspector alone and exit; otherwise run
`db_delete` or `db_create`, turning an `SQLParseError` into the matching
failure.  The cursor is threaded through so the statement log at every
exit is visible. -/
def reconcile (state : DesiredState) (db : String) (checkMode : Bool)
    (cursor : Cursor) : Except FailKind Bool × Cursor :=
  if checkMode then
    match state with
    | .absent =>
      let r := db_exists cursor db
      (.ok r.1, r.2)
    | .present =>
      let r := db_matches cursor db
      (.ok !r.1, r.2)
  else
    match state with
    | .absent =>
      let r := db_delete cursor db
      (.ok r.1, r.2)
    | .present =>
      match db_create cursor db with
      | (.ok b, c1) => (.ok b, c1)
      | (.error e, c1) => (.error (.sqlParse e), c1)

/-- Outcome of the connection-setup block of `main` (source lines
182–203): either a usable cursor, or one of the three handled failure
kinds.  `acquired` records whether a connection object had already been
created when the failure struck (`ensure_libs` fails before connecting;
the autocommit setting or cursor creation fail after). -/
inductive ConnectOutcome where
  | ok (cursor : Cursor)
  | libraryError (msg : String) (acquired : Bool)
  | typeError (msg : String) (sslrootcertInMsg : Bool) (acquired : Bool)
  | otherError (msg : String) (acquired : Bool)

/-- The inputs that determine one invocation of `main`. -/
structure Invocation where
  hasPsycopg2 : Bool
  connect : ConnectOutcome
  state : DesiredState
  db : String
  checkMode : Bool

/-- How the module run ends: `exit_json` with a changed flag, or
`fail_json` with a message. -/
inductive ModuleExit where
  | exitJson (changed : Bool) (db : String)
  | failJson (msg : String)
  deriving DecidableEq

/-- What one invocation of `main` did: how it exited, whether a connection
was acquired, whether `close()` was ever invoked on it, and the final
cursor state when one exists. -/
structure MainOutcome where
  exit : ModuleExit
  connectionAcquired : Bool
  connectionClosed : Bool
  cursor : Option Cursor

/-- `main` (source lines 144–233), from the psycopg2 availability check
onward.  The source contains no call to `close()` on `db_connection` on
any path, so `connectionClosed` is the constant the source makes it. -/
def main (inv : Invocation) : MainOutcome :=
  if !inv.hasPsycopg2 then
    ⟨.failJson "the python psycopg2 module is required", false, false, none⟩
  else
    match inv.connect with
    | .libraryError m acq =>
      ⟨.failJson ("unable to connect to database: " ++ m), acq, false, none⟩
    | .typeError m ssl acq =>
      ⟨.failJson (if ssl then
          "Postgresql server must be at least version 8.4 to support sslrootcert. Exception: " ++ m
        else "unable to connect to database: " ++ m), acq, false, none⟩
    | .otherError m acq =>
      ⟨.failJson ("unable to connect to database: " ++ m), acq, false, none⟩
    | .ok cursor =>
      match reconcile inv.state inv.db inv.checkMode cursor with
      | (.ok changed, c1) => ⟨.exitJson changed inv.db, true, false, some c1⟩
      | (.error (.sqlParse m), c1) => ⟨.failJson m, true, false, some c1⟩
      | (.error (.notSupported m), c1) => ⟨.failJson m, true, false, some c1⟩
      | (.error (.queryFailed m), c1) =>
        ⟨.failJson ("Database query failed: " ++ m), true, false, some c1⟩

/-- A fresh cursor over a catalog in which no database exists. -/
def emptyCursor : Cursor := ⟨⟨fun _ => 0⟩, 0, []⟩

/-- A fresh cursor over a catalog in which exactly `name` exists, with
`n` matching rows. -/
def cursorWith (name : String) (n : Nat) : Cursor :=
  ⟨⟨fun m => if m = name then n else 0⟩, 0, []⟩

/-- The cursor state after the single catalog read `db_exists` performs:
the catalog is untouched, the rowcount holds the match count for `db`, and
the read statement is appended to the log. -/
def afterRead (c : Cursor) (db : String) : Cursor :=
  { c with rowcount := c.catalog.rowsFor db, log := c.log ++ [selectStmt db] }

theorem db_exists_eq (c : Cursor) (db : String) :
    db_exists c db = (c.catalog.rowsFor db == 1, afterRead c db) := by
  simp [db_exists, Cursor.execute, selectStmt, afterRead]

theorem db_matches_eq (c : Cursor) (db : String) :
    db_matches c db = (c.catalog.rowsFor db == 1, afterRead c db) := by
  by_cases h : c.catalog.rowsFor db = 1 <;>
    simp [db_matches, db_exists_eq, h]

theorem db_delete_eq (c : Cursor) (db : String) :
    db_delete c db =
      if c.catalog.rowsFor db = 1 then
        (true, (afterRead c db).execute (.raw "DROP DATABASE %s"))
      else
        (false, afterRead c db) := by
  by_cases h : c.catalog.rowsFor db = 1 <;>
    simp [db_delete, db_exists_eq, h]

theorem db_create_eq (c : Cursor) (db : String) :
    db_create c db =
      if c.catalog.rowsFor db = 1 then
        (.ok false, afterRead c db)
      else
        match pg_quote_identifier db "database" with
        | .error e => (.error e, afterRead c db)
        | .ok quoted =>
          (.ok true, (afterRead c db).execute (.raw (createKeyword ++ quoted))) := by
  by_cases h : c.catalog.rowsFor db = 1 <;>
    simp [db_create, db_exists_eq, h]

theorem reconcile_check_absent_eq (db : String) (c : Cursor) :
    reconcile .absent db true c =
      (.ok (c.catalog.rowsFor db == 1), afterRead c db) := by
  simp [reconcile, db_exists_eq]

theorem reconcile_check_present_eq (db : String) (c : Cursor) :
    reconcile .present db true c =
      (.ok !(c.catalog.rowsFor db == 1), afterRead c db) := by
  simp [reconcile, db_matches_eq]

theorem reconcile_live_absent_eq (db : String) (c : Cursor) :
    reconcile .absent db false c =
      (.ok (db_delete c db).1, (db_delete c db).2) := by
  simp [reconcile]

theorem reconcile_live_present_eq (db : String) (c : Cursor) :
    reconcile .present db false c =
      (match (db_create c db).1 with
        | .ok b => .ok b
        | .error e => .error (.sqlParse e),
       (db_create c db).2) := by
  unfold reconcile
  rcases h : db_create c db with ⟨r, c1⟩
  cases r <;> simp [h]

/-- Claim C10: for every cursor and database name, `db_matches` returns
exactly the same boolean (and the same resulting cursor state) as
`db_exists`; the two functions are extensionally equal, so the check-mode
present branch (`not db_matches`) agrees with the live create branch's
existence test. -/
theorem db_matches_agrees_with_db_exists (c : Cursor) (db : String) :
    db_matches c db = db_exists c db := by
  rw [db_matches_eq, db_exists_eq]

/-- Claim C6: `db_exists` returns true iff exactly one matching catalog
row is found (zero matches yield false), and it executes only the
read-only catalog query: the remote catalog is unchanged and the single
statement it issues is the parameterised select. -/
theorem db_exists_true_iff_one_row_and_readonly (c : Cursor) (db : String) :
    ((db_exists c db).1 = true ↔ c.catalog.rowsFor db = 1) ∧
    (c.catalog.rowsFor db = 0 → (db_exists c db).1 = false) ∧
    (db_exists c db).2.catalog = c.catalog ∧
    (db_exists c db).2.log = c.log ++ [selectStmt db] := by
  rw [db_exists_eq]
  refine ⟨by simp, ?_, rfl, rfl⟩
  intro h0
  simp [h0]

/-- Claim C6, instantiated: on an empty catalog the inspector reports
false and has issued exactly the one read statement. -/
theorem db_exists_true_iff_one_row_and_readonly_witness :
    (db_exists emptyCursor "acme").1 = false ∧
    (db_exists emptyCursor "acme").2.log = [selectStmt "acme"] := by
  have h := db_exists_true_iff_one_row_and_readonly emptyCursor "acme"
  exact ⟨h.2.1 rfl, h.2.2.2⟩

/-- Claim C3, counterexample: a session double reporting 2 matching rows
for "acme" makes `db_exists` return false — it raises no inconsistency
error, contrary to the claim that more than one match is surfaced as an
`InconsistentStateError` rather than returning true or false. -/
theorem db_exists_two_rows_counterexample :
    (db_exists (cursorWith "acme" 2) "acme").1 = false := by
  decide

/-- Claim C3 (amended): when the catalog query reports more than one
matching row, `db_exists` silently returns false (treats the name as
absent); no error of any kind is raised. -/
theorem db_exists_multirow_reports_absent (c : Cursor) (db : String)
    (h : 2 ≤ c.catalog.rowsFor db) :
    (db_exists c db).1 = false := by
  rw [db_exists_eq]
  have hne : c.catalog.rowsFor db ≠ 1 := by omega
  simp [hne]

/-- Claim C3 (amended), instantiated at the two-row session double. -/
theorem db_exists_multirow_reports_absent_witness :
    2 ≤ (cursorWith "acme" 2).catalog.rowsFor "acme" ∧
    (db_exists (cursorWith "acme" 2) "acme").1 = false :=
  ⟨by decide, db_exists_multirow_reports_absent (cursorWith "acme" 2) "acme" (by decide)⟩

/-- Claim C1: over a consistent catalog (each name matching at most one
row), a reconciliation call's changed flag is true iff the observed state
before the call differs from the desired one: `db_create` returns true iff
the database was absent at its check, `db_delete` returns true iff it
existed, and in the agreeing cases both return false, leave the catalog
untouched and issue nothing beyond the read. -/
theorem create_delete_changed_iff_observed_differs (c : Cursor) (db : String)
    (hcons : ∀ n, c.catalog.rowsFor n ≤ 1) :
    (∀ b, (db_create c db).1 = .ok b → (b = true ↔ c.catalog.rowsFor db = 0)) ∧
    ((db_delete c db).1 = true ↔ c.catalog.rowsFor db = 1) ∧
    (c.catalog.rowsFor db = 1 →
      (db_create c db).1 = .ok false ∧
      (db_create c db).2.catalog = c.catalog ∧
      (db_create c db).2.log = c.log ++ [selectStmt db]) ∧
    (c.catalog.rowsFor db = 0 →
      (db_delete c db).1 = false ∧
      (db_delete c db).2.catalog = c.catalog ∧
      (db_delete c db).2.log = c.log ++ [selectStmt db]) := by
  by_cases h : c.catalog.rowsFor db = 1
  · refine ⟨?_, ?_, ?_, ?_⟩
    · intro b hb
      rw [db_create_eq, if_pos h] at hb
      simp only [Except.ok.injEq] at hb
      subst hb
      simp [h]
    · rw [db_delete_eq, if_pos h]
      simp [h]
    · intro _
      rw [db_create_eq, if_pos h]
      exact ⟨rfl, rfl, rfl⟩
    · intro h0
      exfalso
      omega
  · have h0 : c.catalog.rowsFor db = 0 := by
      have := hcons db
      omega
    refine ⟨?_, ?_, ?_, ?_⟩
    · intro b hb
      rw [db_create_eq, if_neg h] at hb
      cases hq : pg_quote_identifier db "database" with
      | error e =>
        rw [hq] at hb
        simp at hb
      | ok quoted =>
        rw [hq] at hb
        simp only [Except.ok.injEq] at hb
        subst hb
        simp [h0]
    · rw [db_delete_eq, if_neg h]
      simp [h]
    · intro h1
      exfalso
      omega
    · intro _
      rw [db_delete_eq, if_neg h]
      exact ⟨rfl, rfl, rfl⟩

/-- Claim C1, instantiated: over an empty catalog the delete flag agrees
with existence, and a concrete create on an absent name reports
changed. -/
theorem create_delete_changed_iff_observed_differs_witness :
    ((db_delete emptyCursor "acme").1 = true ↔
      emptyCursor.catalog.rowsFor "acme" = 1) ∧
    (db_create emptyCursor "acme").1 = .ok true := by
  have h := create_delete_changed_iff_observed_differs emptyCursor "acme"
    (fun _ => Nat.zero_le 1)
  exact ⟨h.2.1, by decide⟩

/-- Claim C4: whenever `db_create` actually issues a creation statement
(the observed state was Absent and the name was quotable), the statement
executed is exactly the creation keyword followed by the output of the
identifier-quoting function on the name — never a raw or unquoted
interpolation. -/
theorem create_statement_uses_quoted_identifier (c : Cursor) (db : String)
    (h : (db_create c db).1 = .ok true) :
    ∃ quoted, pg_quote_identifier db "database" = .ok quoted ∧
      (db_create c db).2.log =
        c.log ++ [selectStmt db, .raw (createKeyword ++ quoted)] := by
  by_cases h1 : c.catalog.rowsFor db = 1
  · rw [db_create_eq, if_pos h1] at h
    simp at h
  · cases hq : pg_quote_identifier db "database" with
    | error e =>
      rw [db_create_eq, if_neg h1, hq] at h
      simp at h
    | ok quoted =>
      refine ⟨quoted, rfl, ?_⟩
      rw [db_create_eq, if_neg h1, hq]
      simp [Cursor.execute, afterRead]

/-- Claim C4, instantiated: creating "acme" on an empty catalog issues the
read followed by the creation statement with the quoted identifier. -/
theorem create_statement_uses_quoted_identifier_witness :
    ∃ quoted, pg_quote_identifier "acme" "database" = .ok quoted ∧
      (db_create emptyCursor "acme").2.log =
        emptyCursor.log ++ [selectStmt "acme", .raw (createKeyword ++ quoted)] :=
  create_statement_uses_quoted_identifier emptyCursor "acme" (by decide)

/-- Claim C2: for every desired state and session, a check-mode call
leaves the remote catalog unchanged and issues only the inspector's read
query — never a creation or deletion statement — and whenever the live
call on the same observed state reports a changed value, the check-mode
call reports the same value. -/
theorem check_mode_reads_only_and_agrees_with_live
    (st : DesiredState) (db : String) (c : Cursor) (b : Bool) :
    (reconcile st db true c).2.catalog = c.catalog ∧
    (reconcile st db true c).2.log = c.log ++ [selectStmt db] ∧
    ((reconcile st db false c).1 = .ok b →
      (reconcile st db true c).1 = .ok b) := by
  cases st with
  | absent =>
    rw [reconcile_check_absent_eq, reconcile_live_absent_eq]
    refine ⟨rfl, rfl, ?_⟩
    intro hb
    by_cases h : c.catalog.rowsFor db = 1 <;>
      [rw [db_delete_eq, if_pos h] at hb; rw [db_delete_eq, if_neg h] at hb] <;>
      simp_all
  | present =>
    rw [reconcile_check_present_eq, reconcile_live_present_eq]
    refine ⟨rfl, rfl, ?_⟩
    intro hb
    by_cases h : c.catalog.rowsFor db = 1
    · rw [db_create_eq, if_pos h] at hb
      simp_all
    · cases hq : pg_quote_identifier db "database" with
      | error e =>
        rw [db_create_eq, if_neg h, hq] at hb
        simp at hb
      | ok quoted =>
        rw [db_create_eq, if_neg h, hq] at hb
        simp_all

/-- Claim C2, instantiated: for desired Present over an empty catalog, the
check-mode call issues only the read and predicts the changed flag the
live call reports. -/
theorem check_mode_reads_only_and_agrees_with_live_witness :
    (reconcile .present "acme" true emptyCursor).2.log =
      emptyCursor.log ++ [selectStmt "acme"] ∧
    (reconcile .present "acme" true emptyCursor).1 = .ok true := by
  have h := check_mode_reads_only_and_agrees_with_live .present "acme" emptyCursor true
  exact ⟨h.2.1, h.2.2 (by decide)⟩

/-- Claim C5, evaluated at the failing input: with "acme" existing,
`db_delete` re-checks existence and reports changed, but the statement it
executes is the literal string "DROP DATABASE %s" — the placeholder is
never substituted with the name, no identifier quoting happens, and the
database is still present in the catalog afterwards, so no deletion
statement for the named database was issued. -/
theorem delete_executes_unsubstituted_placeholder :
    (db_delete (cursorWith "acme" 1) "acme").1 = true ∧
    (db_delete (cursorWith "acme" 1) "acme").2.log =
      [selectStmt "acme", .raw "DROP DATABASE %s"] ∧
    (db_delete (cursorWith "acme" 1) "acme").2.catalog.rowsFor "acme" = 1 := by
  decide

/-- Claim C7, evaluated at the failing input: with "acme" existing, two
sequential live calls with desired Absent — the second observing exactly
the state the first left behind — both report changed, because the first
call's malformed deletion statement removed nothing. -/
theorem delete_twice_reports_changed_twice :
    (reconcile .absent "acme" false (cursorWith "acme" 1)).1 = .ok true ∧
    (reconcile .absent "acme" false
        (reconcile .absent "acme" false (cursorWith "acme" 1)).2).1 = .ok true := by
  decide

/-- Claim C8, counterexample: a successful live run that acquires a
session and completes with exit_json never invokes close() on the
connection, contrary to the claim that the session is released on every
exit path before the invocation ends. -/
theorem successful_run_connection_not_closed_counterexample :
    (main ⟨true, .ok emptyCursor, .present, "acme", false⟩).exit =
      .exitJson true "acme" ∧
    (main ⟨true, .ok emptyCursor, .present, "acme", false⟩).connectionAcquired = true ∧
    (main ⟨true, .ok emptyCursor, .present, "acme", false⟩).connectionClosed = false := by
  decide

/-- Claim C8 (amended): `main` closes the acquired connection on no exit
path at all — successful completion, check-mode exit, validation failure
and connection-setup failure all end the invocation without a close();
release is left to process termination. -/
theorem main_never_closes_connection (inv : Invocation) :
    (main inv).connectionClosed = false := by
  rcases inv with ⟨hp, conn, st, db, cm⟩
  cases hp
  · rfl
  · cases conn with
    | ok cursor =>
      simp only [main]
      rcases h : reconcile st db cm cursor with ⟨r, c1⟩
      cases r with
      | ok b => simp [h]
      | error e => cases e <;> simp [h]
    | libraryError m acq => rfl
    | typeError m ssl acq => rfl
    | otherError m acq => rfl

/-- Claim C9, counterexample: for the unquotable name "a.b" (identifier
quoting fails on it), the deletion path reports no parse/validation error
at all — it completes with a changed flag, since `db_delete` never calls
the quoting function — and on the creation path the read statement for
that name is issued to the session before the validation error
surfaces. -/
theorem bad_name_delete_path_no_validation_error_counterexample :
    pg_quote_identifier "a.b" "database" =
      .error "PostgreSQL does not support database with more than 1 dots" ∧
    (reconcile .absent "a.b" false (cursorWith "a.b" 1)).1 = .ok true ∧
    (reconcile .present "a.b" false emptyCursor).1 =
      .error (.sqlParse "PostgreSQL does not support database with more than 1 dots") ∧
    (reconcile .present "a.b" false emptyCursor).2.log = [selectStmt "a.b"] := by
  decide

/-- Claim C9 (amended): when identifier quoting fails on the name and the
database is absent, the creation path reports the failure through the
dedicated SQLParseError category — distinguished from the query-failure
category — after the read-only existence query but before any mutating
statement is issued (the catalog is unchanged and the log gains only the
read); the deletion path performs no identifier quoting and reports no
validation error. -/
theorem create_validation_error_after_read_before_mutation
    (c : Cursor) (db : String) (e : String)
    (hq : pg_quote_identifier db "database" = .error e)
    (h0 : c.catalog.rowsFor db ≠ 1) :
    (reconcile .present db false c).1 = .error (.sqlParse e) ∧
    (reconcile .present db false c).2.catalog = c.catalog ∧
    (reconcile .present db false c).2.log = c.log ++ [selectStmt db] ∧
    (∃ b, (reconcile .absent db false c).1 = .ok b) := by
  rw [reconcile_live_present_eq, db_create_eq, if_neg h0, hq]
  exact ⟨rfl, rfl, rfl, (db_delete c db).1, by rw [reconcile_live_absent_eq]⟩

/-- Claim C9 (amended), instantiated at the unquotable name "a.b" over an
empty catalog. -/
theorem create_validation_error_after_read_before_mutation_witness :
    (reconcile .present "a.b" false emptyCursor).1 =
      .error (.sqlParse "PostgreSQL does not support database with more than 1 dots") ∧
    (∃ b, (reconcile .absent "a.b" false emptyCursor).1 = .ok b) := by
  have h := create_validation_error_after_read_before_mutation emptyCursor "a.b"
    "PostgreSQL does not support database with more than 1 dots" (by decide) (by decide)
  exact ⟨h.1, h.2.2.2⟩

end RedshiftCreateDb
